import Mathlib

/-!
Shallow embedding of the Syne conversational backend (main.py and the
services package) for checking the natural-language specification.

Pure Python functions become Lean functions over `String` / `List Char`;
each external HTTP call is abstracted as an explicit outcome value that the
embedded function consumes, so that every control-flow branch of the source
is represented.  The session store becomes an explicit map from session ids
to stored message lists, threaded through the `/chat` handler.
-/

/-! ## Character-level utilities shared by the regex-based helpers -/

/-- ASCII whitespace, the characters matched by Python `\s` and stripped by
`str.strip()` for the ASCII inputs considered here. -/
def isSpaceChar (c : Char) : Bool :=
  c = ' ' || c = '\t' || c = '\n' || c = '\r' || c = '\x0b' || c = '\x0c'

/-- Word characters for the regex `\b` assertion (Python `\w`): letters,
digits and underscore. -/
def isWordChar (c : Char) : Bool :=
  c.isAlphanum || c = '_'

/-- Word-ness of an optional character; the edge of the string counts as a
non-word position, matching how `\b` treats string boundaries. -/
def optIsWord : Option Char → Bool
  | none => false
  | some c => isWordChar c

/-- The regex word-boundary assertion `\b` between two adjacent positions:
it holds when exactly one side is a word character. -/
def isBoundary (a b : Option Char) : Bool :=
  optIsWord a != optIsWord b

/-- Python `str.lower()` (character-wise lowering, adequate for the ASCII
keywords and prompts involved). -/
def pyLower (s : String) : String :=
  String.mk (s.data.map Char.toLower)

/-- Leading- and trailing-whitespace removal, Python `str.strip()`. -/
def stripChars (l : List Char) : List Char :=
  ((l.dropWhile isSpaceChar).reverse.dropWhile isSpaceChar).reverse

/-- Python `str.strip()` on strings. -/
def pyStrip (s : String) : String :=
  String.mk (stripChars s.data)

/-- Python slicing `t[:n]` for a non-negative count on strings. -/
def takeChars (n : Nat) (t : String) : String :=
  String.mk (t.data.take n)

/-- Scan underlying the whitespace collapse: a whitespace character opens a
run (emitting one space) unless a run is already open; any other character
closes it. -/
def collapseGo (inRun : Bool) : List Char → List Char
  | [] => []
  | c :: rest =>
    if isSpaceChar c then
      if inRun then collapseGo true rest else ' ' :: collapseGo true rest
    else c :: collapseGo false rest

/-- Collapse of whitespace runs, the effect of `re.sub(r"\s+", " ", s)`:
every maximal run of whitespace characters becomes a single space. -/
def collapseWS (l : List Char) : List Char :=
  collapseGo false l

/-! ## services/brain_service.py -/

/-- The fixed trigger set `SEARCH_KEYWORDS` of services/brain_service.py,
listed in the order the source writes them (which is also the alternation
order of the removal pattern in `extract_query`). -/
def SEARCH_KEYWORDS : List String :=
  ["search", "find", "look up", "google", "duckduckgo"]

/-- Case-insensitive prefix test: the pattern characters (already lower
case) against the subject characters lowered one by one, as Python
`re.IGNORECASE` compares them. -/
def ciStarts : List Char → List Char → Bool
  | [], _ => true
  | _ :: _, [] => false
  | a :: as, b :: bs => (a = Char.toLower b) && ciStarts as bs

/-- Match attempt of `\b(search|find|look up|google|duckduckgo)\b` at the
start of the suffix `s` of the subject, with `prev` the subject character
immediately before that suffix.  Alternation branches are tried in pattern
order and a branch succeeds only if the trailing `\b` also holds; the
result is the length of the matched span. -/
def matchLenAt (prev : Option Char) (s : List Char) : Option Nat :=
  if isBoundary prev s.head? then
    match SEARCH_KEYWORDS.find? (fun t =>
        ciStarts t.data s &&
        isBoundary ((s.take t.length).getLast?) ((s.drop t.length).head?)) with
    | some t => some t.length
    | none => none
  else none

/-- Left-to-right scan of `re.sub(pattern, "", prompt)`: at each position
the leftmost match is removed and scanning resumes right after it; `prev`
is the previous character of the original subject (boundaries are judged on
the original string).  Structural recursion on a fuel that the wrapper sets
to the subject length, which one-character progress per step never
exhausts. -/
def scrubFuel : Nat → Option Char → List Char → List Char
  | _, _, [] => []
  | 0, _, s => s
  | fuel + 1, prev, c :: rest =>
    match matchLenAt prev (c :: rest) with
    | some n =>
      scrubFuel fuel (((c :: rest).take n).getLast?) ((c :: rest).drop n)
    | none => c :: scrubFuel fuel (some c) rest

/-- Removal of every whole-word trigger occurrence from the prompt, the
`re.sub` call of `extract_query`. -/
def scrubAll (s : List Char) : List Char :=
  scrubFuel s.length none s

/-- services/brain_service.py `should_search`: true when any trigger word
occurs as a substring of the lower-cased prompt. -/
def should_search (prompt : String) : Bool :=
  SEARCH_KEYWORDS.any fun w => decide (w.data <:+: (pyLower prompt).data)

/-- services/brain_service.py `extract_query`: strip the search verbs
(whole words, case-insensitive), strip surrounding whitespace, then
collapse inner whitespace runs to single spaces. -/
def extract_query (prompt : String) : String :=
  String.mk (collapseWS (stripChars (scrubAll prompt.data)))

/-- Whole-word occurrence of the literal `kw` at position `i` of `s`:
the regex `\b kw \b` (keyword escaped, hence literal) anchored there.  Both
boundary checks read the original subject characters, which also gives the
correct semantics for an empty keyword. -/
def matchesWordAt (s kw : List Char) (i : Nat) : Bool :=
  kw.isPrefixOf (s.drop i) &&
  isBoundary ((s.take i).getLast?) ((s.drop i).head?) &&
  isBoundary ((s.take (i + kw.length)).getLast?) ((s.drop (i + kw.length)).head?)

/-- Existence of a whole-word occurrence anywhere in `s`, the semantics of
`re.search(rf"\b{re.escape ...}\b", s)` succeeding. -/
def hasWordMatch (s kw : List Char) : Bool :=
  (List.range (s.length + 1)).any fun i => matchesWordAt s kw i

/-- Predicate applied to one keyword-map entry by `pick_model`: does the
trigger phrase occur as a whole word in the lower-cased prompt. -/
def triggerMatches (prompt : String) (kv : String × String) : Bool :=
  hasWordMatch (pyLower prompt).data kv.1.data

/-- services/brain_service.py `pick_model`: scan the keyword map in its
configured order, first whole-word match wins, default "gemini".  The
keyword map comes from a configuration file loaded at import time, so the
embedding takes it as an explicit parameter. -/
def pick_model (rules : List (String × String)) (prompt : String) : String :=
  match rules.find? (fun kv => triggerMatches prompt kv) with
  | some kv => kv.2
  | none => "gemini"

/-! ## services/ddg_service.py -/

/-- A DuckDuckGo search result, the `{title, snippet, url}` dictionaries
built by `ddg_service.search`. -/
structure SearchResult where
  title : String
  snippet : String
  url : String
deriving DecidableEq

/-- One entry of the parsed `RelatedTopics` array: either a dictionary with
string `FirstURL` and `Text` fields, or anything else (non-dictionary, or
missing fields, which the source skips). -/
inductive RelatedTopic where
  | topic (firstURL : String) (text : String)
  | other (tag : Nat)
deriving DecidableEq

/-- The parsed JSON body used by `ddg_service.search`; `none` models a
missing key, for which the source's `data.get` defaults apply. -/
structure DDGData where
  abstract : Option String
  heading : Option String
  abstractURL : Option String
  relatedTopics : List RelatedTopic
deriving DecidableEq

/-- Python substring test `" - " in text`. -/
def hasDashSep (t : String) : Bool :=
  decide ((" - ").data <:+: t.data)

/-- The result built from one related topic: title is the part before
`" - "` when that separator occurs, else the first 60 characters. -/
def topicResult (u t : String) : SearchResult :=
  ⟨if hasDashSep t then (t.splitOn " - ").headD t else takeChars 60 t, t, u⟩

/-- The related-topics loop of `ddg_service.search`: keep dictionary items
whose `FirstURL` and `Text` are both truthy (non-empty). -/
def relatedResults : List RelatedTopic → List SearchResult
  | [] => []
  | RelatedTopic.topic u t :: rest =>
    if u ≠ "" ∧ t ≠ "" then topicResult u t :: relatedResults rest
    else relatedResults rest
  | RelatedTopic.other _ :: rest => relatedResults rest

/-- The deduplication loop of `ddg_service.search`: keep a result when its
url is non-empty and not yet seen. -/
def dedupGo (seen : List String) : List SearchResult → List SearchResult
  | [] => []
  | r :: rest =>
    if r.url ≠ "" ∧ r.url ∉ seen then r :: dedupGo (r.url :: seen) rest
    else dedupGo seen rest

/-- Python list slicing `l[:k]` for an arbitrary integer bound: a negative
bound counts from the end, clamped at zero. -/
def pyTake (k : Int) (l : List α) : List α :=
  l.take (if 0 ≤ k then k.toNat else ((l.length : Int) + k).toNat)

/-- Post-parsing body of `ddg_service.search`: the abstract entry (title
defaulting to the query when `Heading` is missing), then the related
topics, deduplicated by url and cut to `max_results`. -/
def ddg_process (query : String) (data : DDGData) (max_results : Int) :
    List SearchResult :=
  let base :=
    if data.abstract.getD "" ≠ "" then
      [⟨data.heading.getD query, data.abstract.getD "", data.abstractURL.getD ""⟩]
    else []
  pyTake max_results (dedupGo [] (base ++ relatedResults data.relatedTopics))

/-- Outcome of the HTTP request and JSON decoding inside
`ddg_service.search`: a `requests` failure (caught, empty list returned) or
a parsed body. -/
inductive DDGOutcome where
  | reqExn
  | ok (data : DDGData)
deriving DecidableEq

/-- services/ddg_service.py `search`, with the network interaction
abstracted as its outcome. -/
def ddg_search (query : String) (max_results : Int) (o : DDGOutcome) :
    List SearchResult :=
  match o with
  | DDGOutcome.reqExn => []
  | DDGOutcome.ok data => ddg_process query data max_results

/-! ## Message model of main.py -/

/-- A raw stored conversation entry: either a dictionary with a string
`role` and a string `content` (any role string), or any other JSON value
(non-dictionary, missing field, non-string content), which `to_messages`
drops. -/
inductive RawItem where
  | msg (role : String) (content : String)
  | other (tag : Nat)
deriving DecidableEq

/-- A validated `Message` of the response model: role is one of the three
allowed literals, content a string. -/
structure Msg where
  role : String
  content : String
deriving DecidableEq

/-- main.py `to_messages`: keep, in order, exactly the entries that are
dictionaries with an allowed role and string content. -/
def to_messages : List RawItem → List Msg
  | [] => []
  | RawItem.msg r c :: rest =>
    if r = "user" ∨ r = "assistant" ∨ r = "system" then
      ⟨r, c⟩ :: to_messages rest
    else to_messages rest
  | RawItem.other _ :: rest => to_messages rest

/-- Modelled from the spec claim wording, for comparison with
`to_messages`: the entries of the persisted conversation whose role is one
of user, assistant or system and whose content is a string (the `msg`
constructor), in their original order. -/
def keptMessages (raw : List RawItem) : List Msg :=
  raw.filterMap fun item =>
    match item with
    | RawItem.msg r c =>
      if r = "user" ∨ r = "assistant" ∨ r = "system" then some ⟨r, c⟩ else none
    | RawItem.other _ => none

/-! ## Provider services -/

/-- Outcome of the Gemini generation call: the module-level model object is
`None` (missing key or failed initialisation), the API call raised or
produced an unusable response (any exception path), or a text was
generated. -/
inductive GeminiOutcome where
  | noModel
  | genFail
  | genOk (text : String)
deriving DecidableEq

/-- services/gemini_service.py `chat`: reply text with the network call
abstracted as its outcome.  The history re-labelling the source performs
only shapes the request payload, not the returned string. -/
def gemini_chat : GeminiOutcome → String
  | GeminiOutcome.noModel => "Sorry, the AI service is currently unavailable."
  | GeminiOutcome.genFail => "Sorry, I couldn\x27t process your request."
  | GeminiOutcome.genOk t => pyStrip t

/-- Outcome of the Groq completion call: missing client, raised exception,
falsy `choices`, or a message whose `content` attribute is a string or
`None`. -/
inductive GroqOutcome where
  | noClient
  | exn
  | noChoices
  | ok (content : Option String)
deriving DecidableEq

/-- services/groq_service.py `chat`: reply text with the network call
abstracted as its outcome. -/
def groq_chat : GroqOutcome → String
  | GroqOutcome.noClient => "Sorry, the AI service is currently unavailable."
  | GroqOutcome.exn => "Sorry, I couldn\x27t process your request (Groq error)."
  | GroqOutcome.noChoices => "Sorry, I couldn\x27t generate a response."
  | GroqOutcome.ok c =>
    if pyStrip (c.getD "") = "" then "Sorry, I couldn\x27t generate a response."
    else pyStrip (c.getD "")

/-- Outcome of the Hugging Face inference call: missing key, the HTTP error
/ transport / parsing exception branches, or one of the recognised JSON
shapes.  `dictErr` carries the truthiness-relevant `estimated_time`. -/
inductive HfOutcome where
  | noKey
  | httpErr (status : Option Nat)
  | reqExn
  | parseExn
  | listGen (gen : Option String)
  | dictGen (gen : Option String)
  | dictErr (eta : Option Nat)
  | unexpected
deriving DecidableEq

/-- services/hf_service.py `chat`: reply text from the validated prompt and
the abstracted call outcome. -/
def hf_chat (o : HfOutcome) (prompt : String) : String :=
  if pyStrip prompt = "" then "Please provide a valid prompt."
  else
    match o with
    | HfOutcome.noKey => "Hugging Face unavailable."
    | HfOutcome.httpErr status =>
      if status = some 503 then "Model is warming up, please try again shortly."
      else "Sorry, HF service error."
    | HfOutcome.reqExn => "Sorry, HF service error."
    | HfOutcome.parseExn => "Sorry, invalid response from Hugging Face."
    | HfOutcome.listGen gen =>
      if pyStrip (gen.getD "") = "" then "Sorry, I couldn\x27t generate a response."
      else pyStrip (gen.getD "")
    | HfOutcome.dictGen gen =>
      if pyStrip (gen.getD "") = "" then "Sorry, I couldn\x27t generate a response."
      else pyStrip (gen.getD "")
    | HfOutcome.dictErr eta =>
      if eta.getD 0 ≠ 0 then "Model is warming up, please try again in a moment."
      else "Sorry, HF service error."
    | HfOutcome.unexpected => "Sorry, unexpected response from Hugging Face."

/-- Outcome of the Pollinations text call: a body, or a `requests`
exception which the source re-raises. -/
inductive PollOutcome where
  | ok (text : String)
  | reqExn
deriving DecidableEq

/-- services/pollinations_service.py `chat`: returns the stripped body, or
re-raises the transport error (modelled as `Except.error`). -/
def pollinations_chat : PollOutcome → Except Unit String
  | PollOutcome.ok t => Except.ok (pyStrip t)
  | PollOutcome.reqExn => Except.error ()

/-! ## Session store and the /chat orchestrator of main.py -/

/-- The in-memory session store: session id to stored message list; `none`
is an absent key.  `get_session` of an absent id yields an empty
conversation. -/
abbrev Store : Type := String → Option (List RawItem)

/-- A single-key store write, the effect of `set_session` (and of the
write inside `new_session`). -/
def storeSet (store : Store) (k : String) (v : List RawItem) : Store :=
  fun q => if q = k then some v else store q

/-- Per-turn request body, the `ChatRequest` model: prompt, provider choice
and optional edit index (a Python int, hence `Int`). -/
structure ChatReq where
  prompt : String
  model : String
  edit_index : Option Int
deriving DecidableEq

/-- Outcome of the one `ddg_service.search` call a turn may make: an
escaped exception, or the returned result list. -/
inductive SearchOutcome where
  | exn
  | ok (results : List SearchResult)
deriving DecidableEq

/-- The predetermined outcomes of each provider collaborator for this
turn. -/
structure ProviderEnv where
  gemini : GeminiOutcome
  groq : GroqOutcome
  hf : HfOutcome
  pollinations : PollOutcome
deriving DecidableEq

/-- Ambient inputs of one `/chat` turn: the id a fresh session would get,
the routing rule table, and the collaborator outcomes. -/
structure ChatEnv where
  freshId : String
  rules : List (String × String)
  search : SearchOutcome
  providers : ProviderEnv

/-- Session resolution at the top of `/chat`: a missing or empty
`session-id` header creates (and stores) a fresh empty session, otherwise
the supplied id is used untouched. -/
def ensureSession (env : ChatEnv) (store : Store) (sidHdr : Option String) :
    String × Store :=
  match sidHdr with
  | none => (env.freshId, storeSet store env.freshId [])
  | some s =>
    if s = "" then (env.freshId, storeSet store env.freshId []) else (s, store)

/-- The conversation loaded for the turn: the resolved session's stored
messages, empty when absent. -/
def loadedHistory (env : ChatEnv) (store : Store) (sidHdr : Option String) :
    List RawItem :=
  ((ensureSession env store sidHdr).2 ((ensureSession env store sidHdr).1)).getD []

/-- The edit/regenerate step of `/chat` (main.py lines 217-221): no index
keeps the history; an index in `0 <= edit_index <= len(history)` truncates
to the first `edit_index` entries; anything else raises the 400
`HTTPException`. -/
def applyEdit (ei : Option Int) (h : List RawItem) :
    Except Unit (List RawItem) :=
  match ei with
  | none => Except.ok h
  | some e =>
    if 0 ≤ e ∧ e ≤ (h.length : Int) then Except.ok (h.take e.toNat)
    else Except.error ()

/-- The context block format of main.py lines 230-233: one
`Title/Snippet` pair per result, at most three results. -/
def searchContext (rs : List SearchResult) : String :=
  String.intercalate "\n"
    ((rs.take 3).map fun r => "Title: " ++ r.title ++ "\nSnippet: " ++ r.snippet)

/-- The smart-search step of `/chat` (main.py lines 224-236).  Returns the
system messages to append (at most one), the `search_results` variable
(`none` when the call raised or never ran), and the query string actually
passed to the search collaborator (`none` when no call was made). -/
def searchStep (env : ChatEnv) (prompt : String) :
    List RawItem × Option (List SearchResult) × Option String :=
  if should_search prompt then
    match env.search with
    | SearchOutcome.exn => ([], none, some (extract_query prompt))
    | SearchOutcome.ok rs =>
      if rs.isEmpty then ([], some rs, some (extract_query prompt))
      else
        ([RawItem.msg "system" ("Search context:\n" ++ searchContext rs)],
         some rs, some (extract_query prompt))
  else ([], none, none)

/-- The prompt text handed to the Hugging Face provider (main.py lines
255-258): prefixed with the joined snippets of the first three search
results when `search_results` is truthy. -/
def hfPromptOf (sr : Option (List SearchResult)) (prompt : String) : String :=
  match sr with
  | none => prompt
  | some rs =>
    if rs.isEmpty then prompt
    else
      "Context: " ++ String.intercalate " " ((rs.take 3).map fun r => r.snippet) ++
        "\n\nQuestion: " ++ prompt

/-- The closed provider set of the `Literal` request type and of the
validation at main.py line 242. -/
def validModels : List String :=
  ["gemini", "groq", "hf", "pollinations"]

/-- Provider selection of `/chat` (main.py lines 239-243): `auto` defers to
`pick_model`, and anything outside the closed set falls back to
"gemini". -/
def pickProvider (rules : List (String × String)) (model prompt : String) :
    String :=
  let p1 := if model = "auto" then pick_model rules prompt else model
  if p1 ∈ validModels then p1 else "gemini"

/-- The dispatch branch of `/chat` (main.py lines 249-261): gemini, groq
and hf always return a string; pollinations may re-raise its transport
error. -/
def dispatchReply (picked : String) (pe : ProviderEnv) (hfPrompt : String) :
    Except Unit String :=
  if picked = "gemini" then Except.ok (gemini_chat pe.gemini)
  else if picked = "groq" then Except.ok (groq_chat pe.groq)
  else if picked = "hf" then Except.ok (hf_chat pe.hf hfPrompt)
  else pollinations_chat pe.pollinations

/-- The response model of a successful turn. -/
structure ChatResponseM where
  reply : String
  session_id : String
  history : List Msg
deriving DecidableEq

/-- Observable result of one `/chat` turn: the HTTP-level outcome (either a
response body or an error status with detail), the store after the turn,
and the query string sent to the search collaborator, when any. -/
structure ChatResult where
  result : Except (Nat × String) ChatResponseM
  store : Store
  searchQuery : Option String

/-- The part of the `/chat` handler after the edit/regenerate validation
(main.py lines 224-271), acting on the post-edit conversation `history1`:
search augmentation is appended first, then the user message; a provider
exception reaches the outer handler and maps to the 500 `HTTPException`;
otherwise the assistant reply is appended and the full conversation written
back in a single store write. -/
def chatDispatch (env : ChatEnv) (store : Store) (sidHdr : Option String)
    (req : ChatReq) (history1 : List RawItem) : ChatResult :=
  match dispatchReply (pickProvider env.rules req.model req.prompt)
      env.providers (hfPromptOf (searchStep env req.prompt).2.1 req.prompt) with
  | Except.error _ =>
    ⟨Except.error (500, "Internal error"),
     (ensureSession env store sidHdr).2, (searchStep env req.prompt).2.2⟩
  | Except.ok reply =>
    ⟨Except.ok ⟨reply, (ensureSession env store sidHdr).1,
        to_messages (((history1 ++ (searchStep env req.prompt).1) ++
          [RawItem.msg "user" req.prompt]) ++ [RawItem.msg "assistant" reply])⟩,
     storeSet (ensureSession env store sidHdr).2 (ensureSession env store sidHdr).1
       (((history1 ++ (searchStep env req.prompt).1) ++
         [RawItem.msg "user" req.prompt]) ++ [RawItem.msg "assistant" reply]),
     (searchStep env req.prompt).2.2⟩

/-- The `/chat` handler of main.py as a function of the ambient inputs, the
store, the `session-id` header and the request body.  An out-of-range
`edit_index` maps to the 400 `HTTPException` before any further step;
otherwise the turn continues with the truncated conversation. -/
def chat (env : ChatEnv) (store : Store) (sidHdr : Option String)
    (req : ChatReq) : ChatResult :=
  match applyEdit req.edit_index (loadedHistory env store sidHdr) with
  | Except.error _ =>
    ⟨Except.error (400, "edit_index out of range"),
     (ensureSession env store sidHdr).2, none⟩
  | Except.ok history1 => chatDispatch env store sidHdr req history1

/-- The fixed user-safe fallback strings of the provider services. -/
def fallbackStrings : List String :=
  ["Sorry, the AI service is currently unavailable.",
   "Sorry, I couldn\x27t process your request.",
   "Sorry, I couldn\x27t generate a response.",
   "Sorry, I couldn\x27t process your request (Groq error).",
   "Please provide a valid prompt.",
   "Hugging Face unavailable.",
   "Model is warming up, please try again in a moment.",
   "Model is warming up, please try again shortly.",
   "Sorry, HF service error.",
   "Sorry, unexpected response from Hugging Face.",
   "Sorry, invalid response from Hugging Face."]

/-- Failure of the Gemini collaborator: no usable model object, or a
generation exception. -/
def geminiFails : GeminiOutcome → Bool
  | GeminiOutcome.noModel => true
  | GeminiOutcome.genFail => true
  | GeminiOutcome.genOk _ => false

/-- Failure of the Groq collaborator: no client, exception, falsy choices,
or a blank generated content. -/
def groqFails : GroqOutcome → Bool
  | GroqOutcome.ok c => pyStrip (c.getD "") = ""
  | _ => true

/-- Failure of the Hugging Face collaborator: any branch other than a
non-blank generated text. -/
def hfFails : HfOutcome → Bool
  | HfOutcome.listGen g => pyStrip (g.getD "") = ""
  | HfOutcome.dictGen g => pyStrip (g.getD "") = ""
  | _ => true

/-- Failure of the selected provider collaborator, for the providers whose
service wrapper converts failures to fallback text. -/
def providerFails (picked : String) (pe : ProviderEnv) : Bool :=
  if picked = "gemini" then geminiFails pe.gemini
  else if picked = "groq" then groqFails pe.groq
  else if picked = "hf" then hfFails pe.hf
  else false

/-- A turn that completed normally with a fixed fallback reply, persisted
as the final assistant message of the stored conversation. -/
def FallbackOutcome (r : ChatResult) : Prop :=
  ∃ resp, r.result = Except.ok resp ∧ resp.reply ∈ fallbackStrings ∧
    ∃ conv, r.store resp.session_id = some conv ∧
      conv.getLast? = some (RawItem.msg "assistant" resp.reply)

/-! ## Helper lemmas -/

theorem chat_ok (env : ChatEnv) (store : Store) (sidHdr : Option String)
    (req : ChatReq) (h1 : List RawItem)
    (hEdit : applyEdit req.edit_index (loadedHistory env store sidHdr) = Except.ok h1) :
    chat env store sidHdr req = chatDispatch env store sidHdr req h1 := by
  unfold chat
  rw [hEdit]

theorem chat_edit_err (env : ChatEnv) (store : Store) (sidHdr : Option String)
    (req : ChatReq)
    (hEdit : applyEdit req.edit_index (loadedHistory env store sidHdr) = Except.error ()) :
    chat env store sidHdr req =
      ⟨Except.error (400, "edit_index out of range"),
       (ensureSession env store sidHdr).2, none⟩ := by
  unfold chat
  rw [hEdit]

theorem chatDispatch_ok (env : ChatEnv) (store : Store) (sidHdr : Option String)
    (req : ChatReq) (history1 : List RawItem) (t : String)
    (hD : dispatchReply (pickProvider env.rules req.model req.prompt) env.providers
        (hfPromptOf (searchStep env req.prompt).2.1 req.prompt) = Except.ok t) :
    chatDispatch env store sidHdr req history1 =
      ⟨Except.ok ⟨t, (ensureSession env store sidHdr).1,
          to_messages (((history1 ++ (searchStep env req.prompt).1) ++
            [RawItem.msg "user" req.prompt]) ++ [RawItem.msg "assistant" t])⟩,
       storeSet (ensureSession env store sidHdr).2 (ensureSession env store sidHdr).1
         (((history1 ++ (searchStep env req.prompt).1) ++
           [RawItem.msg "user" req.prompt]) ++ [RawItem.msg "assistant" t]),
       (searchStep env req.prompt).2.2⟩ := by
  unfold chatDispatch
  rw [hD]

theorem chatDispatch_err (env : ChatEnv) (store : Store) (sidHdr : Option String)
    (req : ChatReq) (history1 : List RawItem)
    (hD : dispatchReply (pickProvider env.rules req.model req.prompt) env.providers
        (hfPromptOf (searchStep env req.prompt).2.1 req.prompt) = Except.error ()) :
    chatDispatch env store sidHdr req history1 =
      ⟨Except.error (500, "Internal error"),
       (ensureSession env store sidHdr).2, (searchStep env req.prompt).2.2⟩ := by
  unfold chatDispatch
  rw [hD]

theorem pickProvider_mem (rules : List (String × String)) (model prompt : String) :
    pickProvider rules model prompt ∈ validModels := by
  unfold pickProvider
  dsimp only
  by_cases h : (if model = "auto" then pick_model rules prompt else model) ∈ validModels
  · rw [if_pos h]; exact h
  · rw [if_neg h]; decide

theorem dispatch_ok_of_ne_poll (picked : String) (pe : ProviderEnv) (hfp : String)
    (hmem : picked ∈ validModels) (hne : picked ≠ "pollinations") :
    ∃ t, dispatchReply picked pe hfp = Except.ok t := by
  simp only [validModels, List.mem_cons, List.not_mem_nil, or_false] at hmem
  rcases hmem with h | h | h | h
  · exact ⟨gemini_chat pe.gemini, by rw [h]; simp [dispatchReply]⟩
  · exact ⟨groq_chat pe.groq, by rw [h]; simp [dispatchReply]⟩
  · exact ⟨hf_chat pe.hf hfp, by rw [h]; simp [dispatchReply]⟩
  · exact absurd h hne

theorem searchStep_ctx (env : ChatEnv) (prompt : String) :
    (searchStep env prompt).1 = [] ∨
      ∃ c, (searchStep env prompt).1 = [RawItem.msg "system" c] := by
  unfold searchStep
  by_cases h : should_search prompt
  · rw [if_pos h]
    cases env.search with
    | exn => exact Or.inl rfl
    | ok rs =>
      dsimp only
      by_cases he : rs.isEmpty
      · rw [if_pos he]; exact Or.inl rfl
      · rw [if_neg he]; exact Or.inr ⟨_, rfl⟩
  · rw [if_neg h]; exact Or.inl rfl

theorem searchStep_ctx_empty (env : ChatEnv) (prompt : String)
    (hFail : env.search = SearchOutcome.exn ∨ env.search = SearchOutcome.ok []) :
    (searchStep env prompt).1 = [] := by
  unfold searchStep
  by_cases h : should_search prompt
  · rw [if_pos h]
    rcases hFail with hf | hf <;> rw [hf]
    rfl
  · rw [if_neg h]

theorem searchStep_query (env : ChatEnv) (prompt : String)
    (hS : should_search prompt = true) :
    (searchStep env prompt).2.2 = some (extract_query prompt) := by
  unfold searchStep
  rw [if_pos hS]
  cases env.search with
  | exn => rfl
  | ok rs =>
    dsimp only
    by_cases he : rs.isEmpty
    · rw [if_pos he]
    · rw [if_neg he]

theorem gemini_fallback (o : GeminiOutcome) (h : geminiFails o = true) :
    gemini_chat o ∈ fallbackStrings := by
  cases o with
  | noModel => decide
  | genFail => decide
  | genOk t => simp [geminiFails] at h

theorem groq_fallback (o : GroqOutcome) (h : groqFails o = true) :
    groq_chat o ∈ fallbackStrings := by
  cases o with
  | noClient => decide
  | exn => decide
  | noChoices => decide
  | ok c =>
    have hc : pyStrip (c.getD "") = "" := by
      simpa [groqFails] using h
    simp only [groq_chat, if_pos hc]
    decide

theorem hf_fallback (o : HfOutcome) (p : String) (h : hfFails o = true) :
    hf_chat o p ∈ fallbackStrings := by
  unfold hf_chat
  by_cases hp : pyStrip p = ""
  · rw [if_pos hp]; decide
  · rw [if_neg hp]
    cases o with
    | noKey => decide
    | httpErr status =>
      dsimp only
      by_cases hs : status = some 503
      · rw [if_pos hs]; decide
      · rw [if_neg hs]; decide
    | reqExn => decide
    | parseExn => decide
    | listGen g =>
      dsimp only
      have hg : pyStrip (g.getD "") = "" := by simpa [hfFails] using h
      rw [if_pos hg]; decide
    | dictGen g =>
      dsimp only
      have hg : pyStrip (g.getD "") = "" := by simpa [hfFails] using h
      rw [if_pos hg]; decide
    | dictErr eta =>
      dsimp only
      by_cases he : eta.getD 0 ≠ 0
      · rw [if_pos he]; decide
      · rw [if_neg he]; decide
    | unexpected => decide

theorem dispatch_fallback (picked : String) (pe : ProviderEnv) (hfp : String)
    (h : providerFails picked pe = true) :
    ∃ t, dispatchReply picked pe hfp = Except.ok t ∧ t ∈ fallbackStrings := by
  unfold providerFails at h
  by_cases h1 : picked = "gemini"
  · rw [if_pos h1] at h
    exact ⟨gemini_chat pe.gemini, by rw [h1]; simp [dispatchReply], gemini_fallback _ h⟩
  · rw [if_neg h1] at h
    by_cases h2 : picked = "groq"
    · rw [if_pos h2] at h
      exact ⟨groq_chat pe.groq, by rw [h2]; simp [dispatchReply], groq_fallback _ h⟩
    · rw [if_neg h2] at h
      by_cases h3 : picked = "hf"
      · rw [if_pos h3] at h
        exact ⟨hf_chat pe.hf hfp, by rw [h3]; simp [dispatchReply], hf_fallback _ _ h⟩
      · rw [if_neg h3] at h
        simp at h

theorem pick_model_cons (kv : String × String) (rules : List (String × String))
    (prompt : String) :
    pick_model (kv :: rules) prompt =
      if triggerMatches prompt kv then kv.2 else pick_model rules prompt := by
  by_cases h : triggerMatches prompt kv
  · simp [pick_model, List.find?_cons_of_pos, h]
  · rw [if_neg h]
    unfold pick_model
    rw [List.find?_cons_of_neg _ h]

theorem to_messages_eq_kept (l : List RawItem) : to_messages l = keptMessages l := by
  induction l with
  | nil => rfl
  | cons a l ih =>
    cases a with
    | msg r c =>
      by_cases h : r = "user" ∨ r = "assistant" ∨ r = "system" <;>
        simp [to_messages, keptMessages, List.filterMap_cons, h, ih]
    | other t =>
      simp only [to_messages, keptMessages, List.filterMap_cons]
      exact ih

theorem dedupGo_mem (l : List SearchResult) :
    ∀ seen, ∀ r ∈ dedupGo seen l, r.url ≠ "" ∧ r.url ∉ seen := by
  induction l with
  | nil => intro seen r hr; simp [dedupGo] at hr
  | cons a l ih =>
    intro seen r hr
    by_cases h : a.url ≠ "" ∧ a.url ∉ seen
    · rw [dedupGo, if_pos h] at hr
      rcases List.mem_cons.mp hr with rfl | hr
      · exact h
      · have hm := ih _ r hr
        exact ⟨hm.1, fun hs => hm.2 (List.mem_cons_of_mem _ hs)⟩
    · rw [dedupGo, if_neg h] at hr
      exact ih _ r hr

theorem dedupGo_pairwise (l : List SearchResult) :
    ∀ seen, (dedupGo seen l).Pairwise fun a b => a.url ≠ b.url := by
  induction l with
  | nil => intro seen; simp [dedupGo]
  | cons a l ih =>
    intro seen
    by_cases h : a.url ≠ "" ∧ a.url ∉ seen
    · rw [dedupGo, if_pos h]
      refine List.Pairwise.cons ?_ (ih _)
      intro b hb he
      exact (dedupGo_mem l _ b hb).2 (by rw [← he]; exact List.mem_cons_self _ _)
    · rw [dedupGo, if_neg h]
      exact ih _

/-! ## Claim theorems -/

/-- C6: `should_search` is true exactly when some member of the fixed
search-trigger set occurs as a case-insensitive substring of the prompt;
on the prompt "find the capital of France" search triggers and
`extract_query` strips the trigger verb and collapses whitespace, giving
"the capital of France". -/
theorem c6_triggers :
    (∀ p : String, should_search p = true ↔
      ∃ t ∈ SEARCH_KEYWORDS, t.data <:+: (pyLower p).data) ∧
    should_search "find the capital of France" = true ∧
    extract_query "find the capital of France" = "the capital of France" := by
  refine ⟨fun p => ?_, by decide, by decide⟩
  simp [should_search]

/-- C5: `pick_model` scans the configured keyword map in order and returns
the provider of the first entry whose trigger phrase occurs as a whole word
or phrase in the lower-cased prompt, or the fixed default "gemini" when no
entry matches; hence the selection always lies in the closed set of
configured providers together with the default. -/
theorem c5_route (rules : List (String × String)) (prompt : String) :
    (pick_model rules prompt = "gemini" ∨
      pick_model rules prompt ∈ rules.map Prod.snd) ∧
    ((∃ pre kv post, rules = pre ++ kv :: post ∧
        triggerMatches prompt kv = true ∧
        (∀ kv2 ∈ pre, triggerMatches prompt kv2 = false) ∧
        pick_model rules prompt = kv.2) ∨
      ((∀ kv ∈ rules, triggerMatches prompt kv = false) ∧
        pick_model rules prompt = "gemini")) := by
  induction rules with
  | nil => exact ⟨Or.inl rfl, Or.inr ⟨by simp, rfl⟩⟩
  | cons kv rules ih =>
    by_cases h : triggerMatches prompt kv
    · have hp : pick_model (kv :: rules) prompt = kv.2 := by
        rw [pick_model_cons, if_pos h]
      exact ⟨Or.inr (by rw [hp, List.map_cons]; exact List.mem_cons_self _ _),
        Or.inl ⟨[], kv, rules, rfl, h, by simp, hp⟩⟩
    · have hp : pick_model (kv :: rules) prompt = pick_model rules prompt := by
        rw [pick_model_cons, if_neg h]
      have hB : triggerMatches prompt kv = false := by
        simpa using h
      refine ⟨?_, ?_⟩
      · rcases ih.1 with h1 | h1
        · exact Or.inl (hp.trans h1)
        · exact Or.inr (by rw [hp, List.map_cons]; exact List.mem_cons_of_mem _ h1)
      · rcases ih.2 with ⟨pre, kv2, post, hrules, hm, hpre, hpick⟩ | ⟨hall, hpick⟩
        · refine Or.inl ⟨kv :: pre, kv2, post, by simp [hrules], hm, ?_, hp.trans hpick⟩
          intro kv3 hkv3
          rcases List.mem_cons.mp hkv3 with rfl | hkv3
          · exact hB
          · exact hpre _ hkv3
        · refine Or.inr ⟨?_, hp.trans hpick⟩
          intro kv3 hkv3
          rcases List.mem_cons.mp hkv3 with rfl | hkv3
          · exact hB
          · exact hall _ hkv3

/-- C3: for an edit index within `0 <= edit_index <= len(conversation)`,
the edit step succeeds and the conversation used for the rest of the turn
is exactly the first `edit_index` messages of the loaded conversation: a
prefix of it, of length exactly `edit_index`. -/
theorem c3_truncate (h : List RawItem) (e : Int) (h0 : 0 ≤ e)
    (h1 : e ≤ (h.length : Int)) :
    applyEdit (some e) h = Except.ok (h.take e.toNat) ∧
    ((h.take e.toNat).length : Int) = e ∧ h.take e.toNat <+: h := by
  refine ⟨by simp [applyEdit, h0, h1], ?_, List.take_prefix _ _⟩
  have he : e.toNat ≤ h.length := by omega
  simp [List.length_take, Nat.min_eq_left he, Int.toNat_of_nonneg h0]

/-- C3 witness: truncating a two-message conversation at index 1 keeps
exactly its first message. -/
theorem c3_truncate_witness :
    applyEdit (some 1) [RawItem.msg "user" "a", RawItem.msg "assistant" "b"] =
      Except.ok ([RawItem.msg "user" "a", RawItem.msg "assistant" "b"].take (1 : Int).toNat) ∧
    (([RawItem.msg "user" "a", RawItem.msg "assistant" "b"].take (1 : Int).toNat).length : Int) = 1 ∧
    [RawItem.msg "user" "a", RawItem.msg "assistant" "b"].take (1 : Int).toNat <+:
      [RawItem.msg "user" "a", RawItem.msg "assistant" "b"] :=
  c3_truncate [RawItem.msg "user" "a", RawItem.msg "assistant" "b"] 1
    (by decide) (by decide)

/-- C9 counterexample: with two distinct related topics and
`max_results = -1` the returned list has one element, so its length is not
at most `max_results`; the claim quantifies over every `max_results`, but
the Python slice `unique[:max_results]` counts a negative bound from the
end of the list. -/
theorem c9_counterexample :
    (ddg_search "q" (-1)
        (DDGOutcome.ok ⟨none, none, none,
          [RelatedTopic.topic "u1" "t1", RelatedTopic.topic "u2" "t2"]⟩)).length = 1 ∧
    ¬ (((ddg_search "q" (-1)
        (DDGOutcome.ok ⟨none, none, none,
          [RelatedTopic.topic "u1" "t1", RelatedTopic.topic "u2" "t2"]⟩)).length : Int) ≤ -1) := by
  constructor
  · decide
  · decide

/-- C9 (amended with a non-negative result bound): for every query, parsed
body and `max_results >= 0`, the search result list is deduplicated by url
(pairwise distinct), every returned result has a non-empty url, and the
length is at most `max_results`. -/
theorem c9_search_clean (query : String) (o : DDGOutcome) (m : Int) (hm : 0 ≤ m) :
    ((ddg_search query m o).Pairwise fun a b => a.url ≠ b.url) ∧
    (∀ r ∈ ddg_search query m o, r.url ≠ "") ∧
    ((ddg_search query m o).length : Int) ≤ m := by
  cases o with
  | reqExn =>
    refine ⟨by simp [ddg_search], by simp [ddg_search], ?_⟩
    simpa [ddg_search] using hm
  | ok data =>
    have hTake : ∀ l : List SearchResult, pyTake m l = l.take m.toNat := by
      intro l
      unfold pyTake
      rw [if_pos hm]
    unfold ddg_search ddg_process
    dsimp only
    rw [hTake]
    refine ⟨?_, ?_, ?_⟩
    · exact (dedupGo_pairwise _ _).take
    · intro r hr
      exact (dedupGo_mem _ _ r ((List.take_sublist _ _).subset hr)).1
    · calc ((List.take m.toNat (dedupGo [] _)).length : Int)
          ≤ (m.toNat : Int) := by
            exact_mod_cast List.length_take_le _ _
        _ = m := by rw [Int.toNat_of_nonneg hm]

/-- C9 witness: a concrete body with a duplicate url and an empty-url
candidate, cut to five results. -/
theorem c9_search_clean_witness :
    ((ddg_search "q" 5
        (DDGOutcome.ok ⟨some "abs", some "head", some "u1",
          [RelatedTopic.topic "u1" "dup", RelatedTopic.topic "" "no url",
           RelatedTopic.topic "u2" "t2"]⟩)).Pairwise fun a b => a.url ≠ b.url) ∧
    (∀ r ∈ ddg_search "q" 5
        (DDGOutcome.ok ⟨some "abs", some "head", some "u1",
          [RelatedTopic.topic "u1" "dup", RelatedTopic.topic "" "no url",
           RelatedTopic.topic "u2" "t2"]⟩), r.url ≠ "") ∧
    ((ddg_search "q" 5
        (DDGOutcome.ok ⟨some "abs", some "head", some "u1",
          [RelatedTopic.topic "u1" "dup", RelatedTopic.topic "" "no url",
           RelatedTopic.topic "u2" "t2"]⟩)).length : Int) ≤ 5 :=
  c9_search_clean "q"
    (DDGOutcome.ok ⟨some "abs", some "head", some "u1",
      [RelatedTopic.topic "u1" "dup", RelatedTopic.topic "" "no url",
       RelatedTopic.topic "u2" "t2"]⟩) 5 (by decide)

/-- C2 counterexample: with no session id supplied and an out-of-range
`edit_index`, the turn is rejected with a 400 response, yet a store write
has occurred: the handler created and stored a fresh empty session before
validating `edit_index`. -/
theorem c2_counterexample :
    (chat ⟨"f1", [], SearchOutcome.ok [],
        ⟨GeminiOutcome.genOk "x", GroqOutcome.ok (some "y"),
         HfOutcome.listGen (some "z"), PollOutcome.ok "w"⟩⟩
      (fun _ => none) none ⟨"hi", "gemini", some 1⟩).result =
      Except.error (400, "edit_index out of range") ∧
    (chat ⟨"f1", [], SearchOutcome.ok [],
        ⟨GeminiOutcome.genOk "x", GroqOutcome.ok (some "y"),
         HfOutcome.listGen (some "z"), PollOutcome.ok "w"⟩⟩
      (fun _ => none) none ⟨"hi", "gemini", some 1⟩).store "f1" = some [] ∧
    (fun _ => (none : Option (List RawItem))) "f1" = none := by
  refine ⟨rfl, rfl, rfl⟩

/-- C2 (amended for session creation): an out-of-range `edit_index` always
yields the 400 client error with no search call; the store is left exactly
as the session-resolution step left it, and when a non-empty session id
was supplied the store is completely unchanged — in particular the stored
conversation is never modified. -/
theorem c2_reject (env : ChatEnv) (store : Store) (sidHdr : Option String)
    (req : ChatReq) (e : Int) (hE : req.edit_index = some e)
    (hOut : ¬ (0 ≤ e ∧ e ≤ ((loadedHistory env store sidHdr).length : Int))) :
    (chat env store sidHdr req).result =
      Except.error (400, "edit_index out of range") ∧
    (∀ k, (chat env store sidHdr req).store k =
      (ensureSession env store sidHdr).2 k) ∧
    (∀ s, sidHdr = some s → s ≠ "" →
      ∀ k, (chat env store sidHdr req).store k = store k) ∧
    (chat env store sidHdr req).searchQuery = none := by
  have hA : applyEdit req.edit_index (loadedHistory env store sidHdr) =
      Except.error () := by
    rw [hE]
    unfold applyEdit
    dsimp only
    rw [if_neg hOut]
  rw [chat_edit_err env store sidHdr req hA]
  refine ⟨rfl, fun k => rfl, ?_, rfl⟩
  intro s hs hne k
  subst hs
  unfold ensureSession
  dsimp only
  rw [if_neg hne]

/-- C2 witness: a supplied session id with an out-of-range index leaves
the store untouched. -/
theorem c2_reject_witness :
    (chat ⟨"f1", [], SearchOutcome.ok [],
        ⟨GeminiOutcome.genOk "x", GroqOutcome.ok (some "y"),
         HfOutcome.listGen (some "z"), PollOutcome.ok "w"⟩⟩
      (fun _ => none) (some "s") ⟨"hi", "gemini", some 5⟩).result =
      Except.error (400, "edit_index out of range") ∧
    (∀ k, (chat ⟨"f1", [], SearchOutcome.ok [],
        ⟨GeminiOutcome.genOk "x", GroqOutcome.ok (some "y"),
         HfOutcome.listGen (some "z"), PollOutcome.ok "w"⟩⟩
      (fun _ => none) (some "s") ⟨"hi", "gemini", some 5⟩).store k =
      (ensureSession ⟨"f1", [], SearchOutcome.ok [],
        ⟨GeminiOutcome.genOk "x", GroqOutcome.ok (some "y"),
         HfOutcome.listGen (some "z"), PollOutcome.ok "w"⟩⟩
        (fun _ => none) (some "s")).2 k) ∧
    (∀ s, (some "s" : Option String) = some s → s ≠ "" →
      ∀ k, (chat ⟨"f1", [], SearchOutcome.ok [],
        ⟨GeminiOutcome.genOk "x", GroqOutcome.ok (some "y"),
         HfOutcome.listGen (some "z"), PollOutcome.ok "w"⟩⟩
      (fun _ => none) (some "s") ⟨"hi", "gemini", some 5⟩).store k =
        (fun _ => (none : Option (List RawItem))) k) ∧
    (chat ⟨"f1", [], SearchOutcome.ok [],
        ⟨GeminiOutcome.genOk "x", GroqOutcome.ok (some "y"),
         HfOutcome.listGen (some "z"), PollOutcome.ok "w"⟩⟩
      (fun _ => none) (some "s") ⟨"hi", "gemini", some 5⟩).searchQuery = none :=
  c2_reject ⟨"f1", [], SearchOutcome.ok [],
      ⟨GeminiOutcome.genOk "x", GroqOutcome.ok (some "y"),
       HfOutcome.listGen (some "z"), PollOutcome.ok "w"⟩⟩
    (fun _ => none) (some "s") ⟨"hi", "gemini", some 5⟩ 5 rfl (by decide)

/-- C7 counterexample: the prompt "search" triggers search and its cleaned
query is empty, and the query actually sent to the search collaborator is
the empty string, not the original prompt. -/
theorem c7_counterexample :
    should_search "search" = true ∧
    extract_query "search" = "" ∧
    (chat ⟨"f", [], SearchOutcome.ok [],
        ⟨GeminiOutcome.genOk "x", GroqOutcome.ok (some "y"),
         HfOutcome.listGen (some "z"), PollOutcome.ok "w"⟩⟩
      (fun _ => none) (some "s") ⟨"search", "gemini", none⟩).searchQuery =
      some "" ∧
    ("" : String) ≠ "search" := by
  refine ⟨by decide, by decide, by decide, by decide⟩

/-- C7 (amended): whenever the prompt triggers search (and the edit step
succeeds), the query sent to the search collaborator is always exactly
`extract_query(prompt)` — the cleaned query is sent as-is, with no fallback
to the original prompt when it is empty. -/
theorem c7_query_sent (env : ChatEnv) (store : Store) (sidHdr : Option String)
    (req : ChatReq) (h1 : List RawItem)
    (hEdit : applyEdit req.edit_index (loadedHistory env store sidHdr) =
      Except.ok h1)
    (hS : should_search req.prompt = true) :
    (chat env store sidHdr req).searchQuery =
      some (extract_query req.prompt) := by
  rw [chat_ok env store sidHdr req h1 hEdit]
  cases hD : dispatchReply (pickProvider env.rules req.model req.prompt)
      env.providers (hfPromptOf (searchStep env req.prompt).2.1 req.prompt) with
  | error u =>
    cases u
    rw [chatDispatch_err env store sidHdr req h1 hD]
    exact searchStep_query env req.prompt hS
  | ok t =>
    rw [chatDispatch_ok env store sidHdr req h1 t hD]
    exact searchStep_query env req.prompt hS

/-- C7 witness: a triggering prompt whose cleaned query is non-empty is
also sent in cleaned form. -/
theorem c7_query_sent_witness :
    (chat ⟨"f", [], SearchOutcome.ok [],
        ⟨GeminiOutcome.genOk "x", GroqOutcome.ok (some "y"),
         HfOutcome.listGen (some "z"), PollOutcome.ok "w"⟩⟩
      (fun _ => none) (some "s") ⟨"search hello", "gemini", none⟩).searchQuery =
      some (extract_query "search hello") :=
  c7_query_sent ⟨"f", [], SearchOutcome.ok [],
      ⟨GeminiOutcome.genOk "x", GroqOutcome.ok (some "y"),
       HfOutcome.listGen (some "z"), PollOutcome.ok "w"⟩⟩
    (fun _ => none) (some "s") ⟨"search hello", "gemini", none⟩ [] rfl (by decide)

/-- C4: a successful turn persists, under the response's session id and in
a single store write, exactly the (possibly truncated) prior history
followed by an optional single system-role search-context message, the
user message carrying the request prompt, and the assistant reply; every
other store key is untouched. -/
theorem c4_persist_order (env : ChatEnv) (store : Store) (sidHdr : Option String)
    (req : ChatReq) (resp : ChatResponseM)
    (hok : (chat env store sidHdr req).result = Except.ok resp) :
    ∃ h1, applyEdit req.edit_index (loadedHistory env store sidHdr) =
        Except.ok h1 ∧
      ((searchStep env req.prompt).1 = [] ∨
        ∃ c, (searchStep env req.prompt).1 = [RawItem.msg "system" c]) ∧
      resp.session_id = (ensureSession env store sidHdr).1 ∧
      (chat env store sidHdr req).store resp.session_id =
        some (h1 ++ (searchStep env req.prompt).1 ++
          [RawItem.msg "user" req.prompt] ++
          [RawItem.msg "assistant" resp.reply]) ∧
      (∀ k, k ≠ resp.session_id →
        (chat env store sidHdr req).store k =
          (ensureSession env store sidHdr).2 k) := by
  cases hE : applyEdit req.edit_index (loadedHistory env store sidHdr) with
  | error u =>
    cases u
    rw [chat_edit_err env store sidHdr req hE] at hok
    exact absurd hok (by simp)
  | ok h1 =>
    rw [chat_ok env store sidHdr req h1 hE] at hok ⊢
    cases hD : dispatchReply (pickProvider env.rules req.model req.prompt)
        env.providers (hfPromptOf (searchStep env req.prompt).2.1 req.prompt) with
    | error u =>
      cases u
      rw [chatDispatch_err env store sidHdr req h1 hD] at hok
      exact absurd hok (by simp)
    | ok t =>
      rw [chatDispatch_ok env store sidHdr req h1 t hD] at hok ⊢
      obtain rfl : resp = ⟨t, (ensureSession env store sidHdr).1,
          to_messages (((h1 ++ (searchStep env req.prompt).1) ++
            [RawItem.msg "user" req.prompt]) ++ [RawItem.msg "assistant" t])⟩ :=
        (Except.ok.inj hok).symm
      refine ⟨h1, rfl, searchStep_ctx env req.prompt, rfl, ?_, ?_⟩
      · show storeSet _ _ _ _ = _
        unfold storeSet
        rw [if_pos rfl]
      · intro k hk
        show storeSet _ _ _ _ = _
        unfold storeSet
        rw [if_neg hk]

/-- C4 witness: a concrete successful turn with a supplied session id, a
stored prior conversation, a search trigger with results, and a Gemini
reply. -/
theorem c4_persist_order_witness :
    ∃ h1, applyEdit (some 1)
        (loadedHistory ⟨"f", [], SearchOutcome.ok [⟨"T", "S", "U"⟩],
            ⟨GeminiOutcome.genOk "ok!", GroqOutcome.ok (some "y"),
             HfOutcome.listGen (some "z"), PollOutcome.ok "w"⟩⟩
          (fun k => if k = "s" then
              some [RawItem.msg "user" "old", RawItem.other 7] else none)
          (some "s")) = Except.ok h1 ∧
      ((searchStep ⟨"f", [], SearchOutcome.ok [⟨"T", "S", "U"⟩],
          ⟨GeminiOutcome.genOk "ok!", GroqOutcome.ok (some "y"),
           HfOutcome.listGen (some "z"), PollOutcome.ok "w"⟩⟩
          "search it").1 = [] ∨
        ∃ c, (searchStep ⟨"f", [], SearchOutcome.ok [⟨"T", "S", "U"⟩],
          ⟨GeminiOutcome.genOk "ok!", GroqOutcome.ok (some "y"),
           HfOutcome.listGen (some "z"), PollOutcome.ok "w"⟩⟩
          "search it").1 = [RawItem.msg "system" c]) ∧
      (ChatResponseM.mk "ok!" "s"
          [Msg.mk "user" "old", Msg.mk "system" "Search context:\nTitle: T\nSnippet: S",
           Msg.mk "user" "search it", Msg.mk "assistant" "ok!"]).session_id =
        (ensureSession ⟨"f", [], SearchOutcome.ok [⟨"T", "S", "U"⟩],
            ⟨GeminiOutcome.genOk "ok!", GroqOutcome.ok (some "y"),
             HfOutcome.listGen (some "z"), PollOutcome.ok "w"⟩⟩
          (fun k => if k = "s" then
              some [RawItem.msg "user" "old", RawItem.other 7] else none)
          (some "s")).1 ∧
      (chat ⟨"f", [], SearchOutcome.ok [⟨"T", "S", "U"⟩],
          ⟨GeminiOutcome.genOk "ok!", GroqOutcome.ok (some "y"),
           HfOutcome.listGen (some "z"), PollOutcome.ok "w"⟩⟩
        (fun k => if k = "s" then
            some [RawItem.msg "user" "old", RawItem.other 7] else none)
        (some "s") ⟨"search it", "auto", some 1⟩).store
          (ChatResponseM.mk "ok!" "s"
            [Msg.mk "user" "old", Msg.mk "system" "Search context:\nTitle: T\nSnippet: S",
             Msg.mk "user" "search it", Msg.mk "assistant" "ok!"]).session_id =
        some (h1 ++ (searchStep ⟨"f", [], SearchOutcome.ok [⟨"T", "S", "U"⟩],
            ⟨GeminiOutcome.genOk "ok!", GroqOutcome.ok (some "y"),
             HfOutcome.listGen (some "z"), PollOutcome.ok "w"⟩⟩
            "search it").1 ++
          [RawItem.msg "user" "search it"] ++ [RawItem.msg "assistant" "ok!"]) ∧
      (∀ k, k ≠ (ChatResponseM.mk "ok!" "s"
            [Msg.mk "user" "old", Msg.mk "system" "Search context:\nTitle: T\nSnippet: S",
             Msg.mk "user" "search it", Msg.mk "assistant" "ok!"]).session_id →
        (chat ⟨"f", [], SearchOutcome.ok [⟨"T", "S", "U"⟩],
            ⟨GeminiOutcome.genOk "ok!", GroqOutcome.ok (some "y"),
             HfOutcome.listGen (some "z"), PollOutcome.ok "w"⟩⟩
          (fun k => if k = "s" then
              some [RawItem.msg "user" "old", RawItem.other 7] else none)
          (some "s") ⟨"search it", "auto", some 1⟩).store k =
          (ensureSession ⟨"f", [], SearchOutcome.ok [⟨"T", "S", "U"⟩],
              ⟨GeminiOutcome.genOk "ok!", GroqOutcome.ok (some "y"),
               HfOutcome.listGen (some "z"), PollOutcome.ok "w"⟩⟩
            (fun k => if k = "s" then
                some [RawItem.msg "user" "old", RawItem.other 7] else none)
            (some "s")).2 k) :=
  c4_persist_order ⟨"f", [], SearchOutcome.ok [⟨"T", "S", "U"⟩],
      ⟨GeminiOutcome.genOk "ok!", GroqOutcome.ok (some "y"),
       HfOutcome.listGen (some "z"), PollOutcome.ok "w"⟩⟩
    (fun k => if k = "s" then
        some [RawItem.msg "user" "old", RawItem.other 7] else none)
    (some "s") ⟨"search it", "auto", some 1⟩
    (ChatResponseM.mk "ok!" "s"
      [Msg.mk "user" "old", Msg.mk "system" "Search context:\nTitle: T\nSnippet: S",
       Msg.mk "user" "search it", Msg.mk "assistant" "ok!"])
    rfl

/-- C10 (implicit): the history field of a successful response is computed
by `to_messages` from exactly the conversation persisted under the
response's session id, and `to_messages` keeps exactly the well-formed
entries (allowed role, string content) in their original order, so
malformed entries are dropped from the response while remaining in the
stored conversation. -/
theorem c10_history (env : ChatEnv) (store : Store) (sidHdr : Option String)
    (req : ChatReq) (resp : ChatResponseM)
    (hok : (chat env store sidHdr req).result = Except.ok resp) :
    ∃ conv, (chat env store sidHdr req).store resp.session_id = some conv ∧
      resp.history = to_messages conv ∧
      to_messages conv = keptMessages conv := by
  cases hE : applyEdit req.edit_index (loadedHistory env store sidHdr) with
  | error u =>
    cases u
    rw [chat_edit_err env store sidHdr req hE] at hok
    exact absurd hok (by simp)
  | ok h1 =>
    rw [chat_ok env store sidHdr req h1 hE] at hok ⊢
    cases hD : dispatchReply (pickProvider env.rules req.model req.prompt)
        env.providers (hfPromptOf (searchStep env req.prompt).2.1 req.prompt) with
    | error u =>
      cases u
      rw [chatDispatch_err env store sidHdr req h1 hD] at hok
      exact absurd hok (by simp)
    | ok t =>
      rw [chatDispatch_ok env store sidHdr req h1 t hD] at hok ⊢
      obtain rfl : resp = ⟨t, (ensureSession env store sidHdr).1,
          to_messages (((h1 ++ (searchStep env req.prompt).1) ++
            [RawItem.msg "user" req.prompt]) ++ [RawItem.msg "assistant" t])⟩ :=
        (Except.ok.inj hok).symm
      refine ⟨_, ?_, rfl, to_messages_eq_kept _⟩
      show storeSet _ _ _ _ = _
      unfold storeSet
      rw [if_pos rfl]

/-- C10 witness: a stored conversation holding a malformed entry and an
entry with an invalid role keeps both in the store while the response
history drops them. -/
theorem c10_history_witness :
    ∃ conv, (chat ⟨"f", [], SearchOutcome.ok [],
        ⟨GeminiOutcome.genOk "ok!", GroqOutcome.ok (some "y"),
         HfOutcome.listGen (some "z"), PollOutcome.ok "w"⟩⟩
      (fun k => if k = "s" then
          some [RawItem.other 3, RawItem.msg "tool" "bad", RawItem.msg "user" "old"]
        else none)
      (some "s") ⟨"hi", "gemini", none⟩).store
        (ChatResponseM.mk "ok!" "s"
          [Msg.mk "user" "old", Msg.mk "user" "hi", Msg.mk "assistant" "ok!"]).session_id =
        some conv ∧
      (ChatResponseM.mk "ok!" "s"
        [Msg.mk "user" "old", Msg.mk "user" "hi", Msg.mk "assistant" "ok!"]).history =
        to_messages conv ∧
      to_messages conv = keptMessages conv :=
  c10_history ⟨"f", [], SearchOutcome.ok [],
      ⟨GeminiOutcome.genOk "ok!", GroqOutcome.ok (some "y"),
       HfOutcome.listGen (some "z"), PollOutcome.ok "w"⟩⟩
    (fun k => if k = "s" then
        some [RawItem.other 3, RawItem.msg "tool" "bad", RawItem.msg "user" "old"]
      else none)
    (some "s") ⟨"hi", "gemini", none⟩
    (ChatResponseM.mk "ok!" "s"
      [Msg.mk "user" "old", Msg.mk "user" "hi", Msg.mk "assistant" "ok!"])
    rfl

/-- C1 counterexample: with the pollinations provider selected and its
transport call failing, the turn does not complete with a fallback reply:
the re-raised exception maps to a 500 server error and nothing is
persisted for the session. -/
theorem c1_counterexample :
    (chat ⟨"f", [], SearchOutcome.ok [],
        ⟨GeminiOutcome.genOk "x", GroqOutcome.ok (some "y"),
         HfOutcome.listGen (some "z"), PollOutcome.reqExn⟩⟩
      (fun _ => none) (some "s") ⟨"hi", "pollinations", none⟩).result =
      Except.error (500, "Internal error") ∧
    (chat ⟨"f", [], SearchOutcome.ok [],
        ⟨GeminiOutcome.genOk "x", GroqOutcome.ok (some "y"),
         HfOutcome.listGen (some "z"), PollOutcome.reqExn⟩⟩
      (fun _ => none) (some "s") ⟨"hi", "pollinations", none⟩).store "s" =
      none := by
  refine ⟨rfl, rfl⟩

/-- C1 (amended to the providers whose wrappers catch failures): when the
selected provider is gemini, groq or hf and that collaborator fails (as
`providerFails` states: transport error, missing client, empty or
malformed response, warm-up), the turn completes normally with a reply
drawn from the fixed fallback strings, persisted as the final assistant
message of the stored conversation; a failing pollinations call instead
raises and aborts the turn. -/
theorem c1_fallback (env : ChatEnv) (store : Store) (sidHdr : Option String)
    (req : ChatReq) (h1 : List RawItem)
    (hEdit : applyEdit req.edit_index (loadedHistory env store sidHdr) =
      Except.ok h1)
    (hFail : providerFails (pickProvider env.rules req.model req.prompt)
      env.providers = true) :
    FallbackOutcome (chat env store sidHdr req) := by
  obtain ⟨t, hD, hmem⟩ := dispatch_fallback
    (pickProvider env.rules req.model req.prompt) env.providers
    (hfPromptOf (searchStep env req.prompt).2.1 req.prompt) hFail
  rw [chat_ok env store sidHdr req h1 hEdit,
    chatDispatch_ok env store sidHdr req h1 t hD]
  refine ⟨⟨t, (ensureSession env store sidHdr).1,
      to_messages (((h1 ++ (searchStep env req.prompt).1) ++
        [RawItem.msg "user" req.prompt]) ++ [RawItem.msg "assistant" t])⟩,
    rfl, hmem, ?_⟩
  refine ⟨((h1 ++ (searchStep env req.prompt).1) ++
      [RawItem.msg "user" req.prompt]) ++ [RawItem.msg "assistant" t], ?_, ?_⟩
  · show storeSet _ _ _ _ = _
    unfold storeSet
    rw [if_pos rfl]
  · exact List.getLast?_concat _

/-- C1 witness: a groq turn whose completion call raises still completes
with a persisted fallback reply. -/
theorem c1_fallback_witness :
    FallbackOutcome (chat ⟨"f", [], SearchOutcome.ok [],
        ⟨GeminiOutcome.genOk "x", GroqOutcome.exn,
         HfOutcome.listGen (some "z"), PollOutcome.ok "w"⟩⟩
      (fun _ => none) (some "s") ⟨"hi", "groq", none⟩) :=
  c1_fallback ⟨"f", [], SearchOutcome.ok [],
      ⟨GeminiOutcome.genOk "x", GroqOutcome.exn,
       HfOutcome.listGen (some "z"), PollOutcome.ok "w"⟩⟩
    (fun _ => none) (some "s") ⟨"hi", "groq", none⟩ [] rfl (by decide)

/-- C8 counterexample: a turn whose search collaborator raises and whose
selected pollinations provider also fails aborts with a 500 error and
persists nothing, so a search-failure turn does not always produce a reply
and a persisted conversation. -/
theorem c8_counterexample :
    should_search "search hello" = true ∧
    (chat ⟨"f", [], SearchOutcome.exn,
        ⟨GeminiOutcome.genOk "x", GroqOutcome.ok (some "y"),
         HfOutcome.listGen (some "z"), PollOutcome.reqExn⟩⟩
      (fun _ => none) (some "s") ⟨"search hello", "pollinations", none⟩).result =
      Except.error (500, "Internal error") ∧
    (chat ⟨"f", [], SearchOutcome.exn,
        ⟨GeminiOutcome.genOk "x", GroqOutcome.ok (some "y"),
         HfOutcome.listGen (some "z"), PollOutcome.reqExn⟩⟩
      (fun _ => none) (some "s") ⟨"search hello", "pollinations", none⟩).store "s" =
      none := by
  refine ⟨by decide, rfl, rfl⟩

/-- C8 (amended): when the search collaborator raises or returns an empty
result set, no search-context message is injected, and — provided the
selected provider is not pollinations — the turn still completes with a
reply and persists the conversation; a failing pollinations dispatch can
still abort the turn regardless of search. -/
theorem c8_degrade (env : ChatEnv) (store : Store) (sidHdr : Option String)
    (req : ChatReq) (h1 : List RawItem)
    (hEdit : applyEdit req.edit_index (loadedHistory env store sidHdr) =
      Except.ok h1)
    (_hS : should_search req.prompt = true)
    (hFail : env.search = SearchOutcome.exn ∨ env.search = SearchOutcome.ok [])
    (hNP : pickProvider env.rules req.model req.prompt ≠ "pollinations") :
    ∃ resp, (chat env store sidHdr req).result = Except.ok resp ∧
      (chat env store sidHdr req).store resp.session_id =
        some (h1 ++ [RawItem.msg "user" req.prompt,
          RawItem.msg "assistant" resp.reply]) := by
  have hCtx : (searchStep env req.prompt).1 = [] :=
    searchStep_ctx_empty env req.prompt hFail
  obtain ⟨t, hD⟩ := dispatch_ok_of_ne_poll
    (pickProvider env.rules req.model req.prompt) env.providers
    (hfPromptOf (searchStep env req.prompt).2.1 req.prompt)
    (pickProvider_mem env.rules req.model req.prompt) hNP
  rw [chat_ok env store sidHdr req h1 hEdit,
    chatDispatch_ok env store sidHdr req h1 t hD]
  refine ⟨⟨t, (ensureSession env store sidHdr).1,
      to_messages (((h1 ++ (searchStep env req.prompt).1) ++
        [RawItem.msg "user" req.prompt]) ++ [RawItem.msg "assistant" t])⟩,
    rfl, ?_⟩
  show storeSet _ _ _ _ = _
  unfold storeSet
  rw [if_pos rfl, hCtx]
  simp

/-- C8 witness: a search-triggering turn whose search call raises, routed
to gemini, still replies and persists. -/
theorem c8_degrade_witness :
    ∃ resp, (chat ⟨"f", [], SearchOutcome.exn,
        ⟨GeminiOutcome.genOk "ok!", GroqOutcome.ok (some "y"),
         HfOutcome.listGen (some "z"), PollOutcome.ok "w"⟩⟩
      (fun _ => none) (some "s") ⟨"search hi", "gemini", none⟩).result =
      Except.ok resp ∧
      (chat ⟨"f", [], SearchOutcome.exn,
          ⟨GeminiOutcome.genOk "ok!", GroqOutcome.ok (some "y"),
           HfOutcome.listGen (some "z"), PollOutcome.ok "w"⟩⟩
        (fun _ => none) (some "s") ⟨"search hi", "gemini", none⟩).store
          resp.session_id =
        some ([] ++ [RawItem.msg "user" "search hi",
          RawItem.msg "assistant" resp.reply]) :=
  c8_degrade ⟨"f", [], SearchOutcome.exn,
      ⟨GeminiOutcome.genOk "ok!", GroqOutcome.ok (some "y"),
       HfOutcome.listGen (some "z"), PollOutcome.ok "w"⟩⟩
    (fun _ => none) (some "s") ⟨"search hi", "gemini", none⟩ [] rfl
    (by decide) (Or.inl rfl) (by decide)
